import Mathlib

/-!
# Verification of the cotracker Aranet4 history-retrieval core

Shallow embedding of `src/main.rs`. Byte buffers are `List Nat` (each entry a
byte value); the `bytes::Buf` cursor operations `get_u8` / `get_u16_le` return
`none` where the Rust ones would panic on underflow. `f32` sample values are
modelled as exact rationals, with the `f32::NAN` sentinel a separate
constructor `Val.nan` (decoding a little-endian unsigned integer and dividing
by a positive constant never yields NaN, so the sentinel is disjoint from
every decodable value).
-/

namespace Cotracker

/-- An `f32` cell of the history sample vector: either the `f32::NAN` sentinel
the vector is initialised with (`vec![f32::NAN; num_samples]`) or a decoded
numeric value, modelled exactly as a rational. -/
inductive Val where
  | nan : Val
  | num : ℚ → Val
deriving DecidableEq, Repr

/-- The `Sensor` enum of `main.rs`. -/
inductive Sensor where
  | Temperature
  | Humidity
  | Pressure
  | CO2
deriving DecidableEq, Repr

/-- `Sensor::id` from `main.rs`: the protocol id byte of each sensor. -/
def Sensor.id : Sensor → Nat
  | .Temperature => 1
  | .Humidity => 2
  | .Pressure => 3
  | .CO2 => 4

/-- `bytes::Buf::get_u8` on a byte cursor: take one byte, advance; `none`
models the Rust panic when the cursor is empty. -/
def get_u8 : List Nat → Option (Nat × List Nat)
  | [] => none
  | b :: r => some (b, r)

/-- `bytes::Buf::get_u16_le`: take two bytes as a little-endian unsigned
integer, advance; `none` models the Rust panic on underflow. -/
def get_u16_le : List Nat → Option (Nat × List Nat)
  | b0 :: b1 :: r => some (b0 + 256 * b1, r)
  | _ => none

/-- `Sensor::read` from `main.rs` (the SensorCodec): Temperature and Pressure
read a `u16` little-endian and divide by 20.0 resp. 10.0, CO2 reads a `u16`
little-endian unscaled, Humidity reads a single byte unscaled. -/
def Sensor.read (s : Sensor) (r : List Nat) : Option (ℚ × List Nat) :=
  match s with
  | .Temperature => (get_u16_le r).map fun p => ((p.1 : ℚ) / 20, p.2)
  | .Humidity => (get_u8 r).map fun p => ((p.1 : ℚ), p.2)
  | .Pressure => (get_u16_le r).map fun p => ((p.1 : ℚ) / 10, p.2)
  | .CO2 => (get_u16_le r).map fun p => ((p.1 : ℚ), p.2)

/-- Byte width each sensor's codec consumes (2 for the `u16` sensors, 1 for
Humidity). -/
def Sensor.width : Sensor → Nat
  | .Humidity => 1
  | _ => 2

/-- Little-endian unsigned interpretation of a byte list. -/
def rawLE : List Nat → Nat
  | [] => 0
  | b :: r => b + 256 * rawLE r

/-- The scale each sensor's codec applies to the raw integer. -/
def Sensor.scale (s : Sensor) (raw : Nat) : ℚ :=
  match s with
  | .Temperature => (raw : ℚ) / 20
  | .Pressure => (raw : ℚ) / 10
  | .Humidity => (raw : ℚ)
  | .CO2 => (raw : ℚ)

/-- `bytes::BufMut::put_u8`: append one byte to the write cursor. -/
def put_u8 (w : List Nat) (b : Nat) : List Nat :=
  w ++ [b % 256]

/-- `bytes::BufMut::put_u16_le`: append a `u16` in little-endian order. -/
def put_u16_le (w : List Nat) (v : Nat) : List Nat :=
  w ++ [v % 256, v / 256 % 256]

/-- The history-range-request command built in `read_history` (`main.rs`
lines 161–169): `put_u8 0x82; put_u8 sensor.id(); put_u16_le 0;
put_u16_le start; put_u16_le end`. The source fixes `start = 1`,
`end = 0xffff`; the two index arguments are kept as parameters, encoded
exactly as the source's `put_u16_le` calls. -/
def history_range_request (sensor : Sensor) (start stop : Nat) : List Nat :=
  put_u16_le (put_u16_le (put_u16_le (put_u8 (put_u8 [] 0x82) sensor.id) 0) start) stop

/-- The fields printed by `read_aranet` from the CURRENT_READING_FULL
characteristic (`main.rs` lines 130–139), in read order. -/
structure Snapshot where
  co2 : ℚ
  temperature : ℚ
  pressure : ℚ
  humidity : ℚ
  battery : Nat
  status : Nat
  interval : Nat
  passed : Nat
deriving DecidableEq, Repr

/-- One field of the current-reading sequence as `read_aranet` prints it. -/
inductive Field where
  | co2 (v : ℚ)
  | temperature (v : ℚ)
  | pressure (v : ℚ)
  | humidity (v : ℚ)
  | battery (v : Nat)
  | status (v : Nat)
  | interval (v : Nat)
  | passed (v : Nat)
deriving DecidableEq, Repr

/-- The current-reading sequence of `read_aranet` (`main.rs` lines 130–139)
with its observable output. Each field is `println!`-ed the moment it is
decoded, so on a short buffer the fields decoded before the underflow panic
have already been emitted: the first component collects the fields printed
up to the point of failure (all eight on success), the second is the
complete snapshot, `none` when any read panics. -/
def read_current_trace (buf : List Nat) : List Field × Option Snapshot :=
  match Sensor.read .CO2 buf with
  | none => ([], none)
  | some (co2, r1) =>
  match Sensor.read .Temperature r1 with
  | none => ([Field.co2 co2], none)
  | some (temperature, r2) =>
  match Sensor.read .Pressure r2 with
  | none => ([Field.co2 co2, Field.temperature temperature], none)
  | some (pressure, r3) =>
  match Sensor.read .Humidity r3 with
  | none => ([Field.co2 co2, Field.temperature temperature,
      Field.pressure pressure], none)
  | some (humidity, r4) =>
  match get_u8 r4 with
  | none => ([Field.co2 co2, Field.temperature temperature,
      Field.pressure pressure, Field.humidity humidity], none)
  | some (battery, r5) =>
  match get_u8 r5 with
  | none => ([Field.co2 co2, Field.temperature temperature,
      Field.pressure pressure, Field.humidity humidity,
      Field.battery battery], none)
  | some (status, r6) =>
  match get_u16_le r6 with
  | none => ([Field.co2 co2, Field.temperature temperature,
      Field.pressure pressure, Field.humidity humidity,
      Field.battery battery, Field.status status], none)
  | some (interval, r7) =>
  match get_u16_le r7 with
  | none => ([Field.co2 co2, Field.temperature temperature,
      Field.pressure pressure, Field.humidity humidity,
      Field.battery battery, Field.status status,
      Field.interval interval], none)
  | some (passed, _) =>
    ([Field.co2 co2, Field.temperature temperature,
      Field.pressure pressure, Field.humidity humidity,
      Field.battery battery, Field.status status,
      Field.interval interval, Field.passed passed],
      some ⟨co2, temperature, pressure, humidity, battery, status, interval,
        passed⟩)

/-- The completed snapshot of the current-reading sequence, `none` when the
sequence panics on underflow; the fields already printed at that point are
the first component of `read_current_trace`. -/
def read_current (buf : List Nat) : Option Snapshot :=
  (read_current_trace buf).2

/-- How many fields `read_aranet` has printed when given a current-reading
buffer of `n` bytes: one per successful read of the 2+2+2+1+1+1+2+2-byte
field sequence. -/
def emitted_fields (n : Nat) : Nat :=
  if n < 2 then 0 else if n < 4 then 1 else if n < 6 then 2
  else if n < 7 then 3 else if n < 8 then 4 else if n < 9 then 5
  else if n < 11 then 6 else if n < 13 then 7 else 8

/-- Mutable state of the `read_history` loop: the `samples` vector and the
`samples_read` counter. -/
structure RState where
  samples : List Val
  samples_read : Nat
deriving DecidableEq, Repr

/-- The initial reassembler state of `read_history`:
`vec![f32::NAN; num_samples]` and `samples_read = 0`. -/
def init_state (num_samples : Nat) : RState :=
  ⟨List.replicate num_samples Val.nan, 0⟩

/-- Result of processing one notification frame in the `read_history` loop:
`next` continues the loop, `complete` is the `break` when
`samples_read == num_samples`, `protocolViolation` is the
`assert_eq!(sensor_id, sensor.id())` failure (carrying the untouched state),
and `panicked` is an index-out-of-bounds / buffer-underflow panic inside the
write loop. -/
inductive Outcome where
  | next (s : RState)
  | complete (s : RState)
  | protocolViolation (s : RState)
  | panicked
deriving DecidableEq, Repr

/-- The inner `for i in index..index + length` loop of `read_history`
(`main.rs` lines 188–191): each iteration first evaluates
`sensor.read(&mut reader)` (Rust evaluates the right-hand side of the
assignment first), then stores it at `samples[i - 1]`, incrementing
`samples_read`. `none` models a panic: cursor underflow in `sensor.read`,
or `i = 0` (usize underflow in `i - 1`), or `i - 1` out of bounds. -/
def writeLoop (sensor : Sensor) (samples : List Val) (reader : List Nat)
    (index count samples_read : Nat) : Option (List Val × List Nat × Nat) :=
  match count with
  | 0 => some (samples, reader, samples_read)
  | c + 1 =>
    match Sensor.read sensor reader with
    | none => none
    | some (v, r') =>
      if 1 ≤ index ∧ index - 1 < samples.length then
        writeLoop sensor (samples.set (index - 1) (Val.num v)) r' (index + 1) c
          (samples_read + 1)
      else none

/-- One iteration of the `read_history` notification loop (`main.rs` lines
178–195) on a frame that passed the uuid filter: parse the header
(`sensor_id` byte, `index` as `u16` LE, `length` byte), run
`assert_eq!(sensor_id, sensor.id())`, write the `length` decoded values at
positions `index - 1 ..`, then `break` when `samples_read == num_samples`. -/
def process_frame (sensor : Sensor) (num_samples : Nat) (s : RState)
    (frame : List Nat) : Outcome :=
  match get_u8 frame with
  | none => Outcome.panicked
  | some (sensor_id, r1) =>
  match get_u16_le r1 with
  | none => Outcome.panicked
  | some (index, r2) =>
  match get_u8 r2 with
  | none => Outcome.panicked
  | some (length, r3) =>
  if sensor_id = sensor.id then
    match writeLoop sensor s.samples r3 index length s.samples_read with
    | none => Outcome.panicked
    | some (samples', _, read') =>
      if read' = num_samples then Outcome.complete ⟨samples', read'⟩
      else Outcome.next ⟨samples', read'⟩
  else Outcome.protocolViolation s

/-- Result of running the `read_history` loop on a finite prefix of the
notification stream: `complete` returns the finished sample vector (the
`Ok(samples)` after the `break`), `pending` is the loop still awaiting more
frames, the other two are the abort cases. -/
inductive RunResult where
  | complete (samples : List Val)
  | pending (s : RState)
  | violation (s : RState)
  | panicked
deriving DecidableEq, Repr

/-- Run the `read_history` loop over a list of frames (the notification
payloads that match the HISTORY_NOTIFIER uuid), stopping at the `break` or
at an abort. -/
def run_history (sensor : Sensor) (num_samples : Nat) (s : RState) :
    List (List Nat) → RunResult
  | [] => RunResult.pending s
  | f :: fs =>
    match process_frame sensor num_samples s f with
    | Outcome.next s' => run_history sensor num_samples s' fs
    | Outcome.complete s' => RunResult.complete s'.samples
    | Outcome.protocolViolation s' => RunResult.violation s'
    | Outcome.panicked => RunResult.panicked

/-- Decode `count` consecutive values with the sensor's codec, returning the
value list and the remaining cursor (specification-level companion of the
write loop's read side). -/
def decodeVals (sensor : Sensor) : Nat → List Nat → Option (List ℚ × List Nat)
  | 0, r => some ([], r)
  | c + 1, r =>
    match Sensor.read sensor r with
    | none => none
    | some (v, r') =>
      match decodeVals sensor c r' with
      | none => none
      | some (vs, r'') => some (v :: vs, r'')

/-- Overwrite consecutive buffer positions `start, start+1, …` with the given
decoded values. -/
def setRange (l : List Val) (start : Nat) : List ℚ → List Val
  | [] => l
  | v :: vs => setRange (l.set start (Val.num v)) (start + 1) vs

/-- A history notification frame as `read_history` parses it: target sensor's
id byte, the 1-based start index as two little-endian bytes, the count byte,
then the payload bytes. -/
def mkFrame (sensor : Sensor) (start cnt : Nat) (payload : List Nat) : List Nat :=
  sensor.id :: start % 256 :: start / 256 :: cnt :: payload

/-- The sample buffer an outcome leaves behind (`none` after a panic). -/
def Outcome.buffer : Outcome → Option (List Val)
  | .next s => some s.samples
  | .complete s => some s.samples
  | .protocolViolation s => some s.samples
  | .panicked => none

/-- Whether an outcome is reached by a Rust panic unwinding `read_history`
(a crash): the `assert_eq!` failure on a sensor-id mismatch
(`protocolViolation`) and the index/cursor panics of the write loop
(`panicked`) both abort via `panic!`; no error value is constructed and
returned on either path. -/
def Outcome.isCrash : Outcome → Bool
  | .next _ => false
  | .complete _ => false
  | .protocolViolation _ => true
  | .panicked => true

/-- A frame triple `(start, count, payload)` that is well formed for the
in-flight retrieval: 1-based start index, in-bounds write range, and a
payload the sensor's codec can decode `count` values from. -/
def WFFrame (sensor : Sensor) (total : Nat) (f : Nat × Nat × List Nat) : Prop :=
  1 ≤ f.1 ∧ f.1 < 65536 ∧ f.1 - 1 + f.2.1 ≤ total ∧
    ∃ vs rest, decodeVals sensor f.2.1 f.2.2 = some (vs, rest)

theorem setRange_length (vs : List ℚ) :
    ∀ (l : List Val) (start : Nat), (setRange l start vs).length = l.length := by
  induction vs with
  | nil => intro l start; rfl
  | cons v vs ih =>
    intro l start
    simp only [setRange, ih, List.length_set]

theorem getElem?_setRange_lt (vs : List ℚ) :
    ∀ (l : List Val) (start j : Nat), j < start →
      (setRange l start vs)[j]? = l[j]? := by
  induction vs with
  | nil => intro l start j _; rfl
  | cons v vs ih =>
    intro l start j hj
    simp only [setRange]
    rw [ih _ _ _ (Nat.lt_succ_of_lt hj), List.getElem?_set]
    simp [Nat.ne_of_gt hj]

theorem getElem?_setRange_ge (vs : List ℚ) :
    ∀ (l : List Val) (start j : Nat), start + vs.length ≤ j →
      (setRange l start vs)[j]? = l[j]? := by
  induction vs with
  | nil => intro l start j _; rfl
  | cons v vs ih =>
    intro l start j hj
    simp only [List.length_cons] at hj
    simp only [setRange]
    rw [ih _ _ _ (by omega), List.getElem?_set]
    have : start ≠ j := by omega
    simp [this]

theorem getElem?_setRange_mem (vs : List ℚ) :
    ∀ (l : List Val) (start j : Nat), start ≤ j → j < start + vs.length →
      j < l.length → (setRange l start vs)[j]? = (vs[j - start]?).map Val.num := by
  induction vs with
  | nil =>
    intro l start j h1 h2 _
    simp only [List.length_nil, Nat.add_zero] at h2
    omega
  | cons v vs ih =>
    intro l start j h1 h2 hl
    simp only [setRange]
    rcases Nat.eq_or_lt_of_le h1 with heq | hlt
    · subst heq
      rw [getElem?_setRange_lt _ _ _ _ (Nat.lt_succ_self _), List.getElem?_set]
      simp [hl]
    · rw [ih _ _ _ hlt (by simp only [List.length_cons] at h2; omega)
        (by simpa using hl)]
      have hj : j - start = (j - (start + 1)) + 1 := by omega
      rw [hj]
      simp

theorem decodeVals_length (sensor : Sensor) :
    ∀ (c : Nat) (r : List Nat) (vs : List ℚ) (r' : List Nat),
      decodeVals sensor c r = some (vs, r') → vs.length = c := by
  intro c
  induction c with
  | zero =>
    intro r vs r' h
    simp only [decodeVals, Option.some.injEq] at h
    injection h with h1 h2
    simp [← h1]
  | succ c ih =>
    intro r vs r' h
    simp only [decodeVals] at h
    rcases hr : Sensor.read sensor r with _ | ⟨v, r1⟩ <;> simp only [hr] at h
    · exact Option.noConfusion h
    rcases hd : decodeVals sensor c r1 with _ | ⟨vs1, r2⟩ <;> simp only [hd] at h
    · exact Option.noConfusion h
    injection h with h
    injection h with h1 h2
    rw [← h1, List.length_cons, ih _ _ _ hd]

/-- The write loop, under the in-bounds precondition and a successful decode,
writes exactly the decoded values at positions `index - 1, …,
index - 1 + count - 1` and adds `count` to `samples_read`. -/
theorem writeLoop_eq (sensor : Sensor) :
    ∀ (count : Nat) (samples : List Val) (reader : List Nat)
      (index samples_read : Nat) (vs : List ℚ) (r' : List Nat),
      1 ≤ index → index - 1 + count ≤ samples.length →
      decodeVals sensor count reader = some (vs, r') →
      writeLoop sensor samples reader index count samples_read =
        some (setRange samples (index - 1) vs, r', samples_read + count) := by
  intro count
  induction count with
  | zero =>
    intro samples reader index sr vs r' _ _ hdec
    simp only [decodeVals, Option.some.injEq, Prod.mk.injEq] at hdec
    simp [writeLoop, ← hdec.1, hdec.2, setRange]
  | succ c ih =>
    intro samples reader index sr vs r' hidx hbound hdec
    simp only [decodeVals] at hdec
    rcases hr : Sensor.read sensor reader with _ | ⟨v, r1⟩ <;> simp only [hr] at hdec
    · exact Option.noConfusion hdec
    rcases hd : decodeVals sensor c r1 with _ | ⟨vs1, r2⟩ <;> simp only [hd] at hdec
    · exact Option.noConfusion hdec
    injection hdec with hdec
    injection hdec with hv hr2
    subst hr2
    simp only [writeLoop, hr]
    have hcond : 1 ≤ index ∧ index - 1 < samples.length := ⟨hidx, by omega⟩
    rw [if_pos hcond]
    rw [ih (samples.set (index - 1) (Val.num v)) r1 (index + 1) (sr + 1) vs1 r2
      (by omega) (by rw [List.length_set]; omega) hd]
    have hset : setRange samples (index - 1) (v :: vs1) =
        setRange (samples.set (index - 1) (Val.num v)) (index - 1 + 1) vs1 := rfl
    have hi1 : index - 1 + 1 = index + 1 - 1 := by omega
    rw [← hv, hset, hi1]
    have hsr : sr + 1 + c = sr + (c + 1) := by omega
    rw [hsr]

/-- `Sensor::read` on a cursor holding at least the sensor's width: consumes
exactly `width` bytes, interprets them little-endian and applies the scale. -/
theorem sensor_read_eq (s : Sensor) (r : List Nat) (h : s.width ≤ r.length) :
    s.read r = some (s.scale (rawLE (r.take s.width)), r.drop s.width) := by
  cases s
  case Humidity =>
    rcases r with _ | ⟨b, rest⟩
    · simp [Sensor.width] at h
    · simp [Sensor.read, get_u8, Sensor.scale, Sensor.width, rawLE]
  case Temperature =>
    rcases r with _ | ⟨b0, rest⟩
    · simp [Sensor.width] at h
    rcases rest with _ | ⟨b1, rest⟩
    · simp [Sensor.width] at h
    simp [Sensor.read, get_u16_le, Sensor.scale, Sensor.width, rawLE]
  case Pressure =>
    rcases r with _ | ⟨b0, rest⟩
    · simp [Sensor.width] at h
    rcases rest with _ | ⟨b1, rest⟩
    · simp [Sensor.width] at h
    simp [Sensor.read, get_u16_le, Sensor.scale, Sensor.width, rawLE]
  case CO2 =>
    rcases r with _ | ⟨b0, rest⟩
    · simp [Sensor.width] at h
    rcases rest with _ | ⟨b1, rest⟩
    · simp [Sensor.width] at h
    simp [Sensor.read, get_u16_le, Sensor.scale, Sensor.width, rawLE]

/-- With start index 0 and a positive count, the first write loop iteration
panics (`i - 1` underflow / out-of-bounds access). -/
theorem writeLoop_zero_index (sensor : Sensor) (samples : List Val)
    (reader : List Nat) (c samples_read : Nat) (hc : 1 ≤ c) :
    writeLoop sensor samples reader 0 c samples_read = none := by
  rcases c with _ | c
  · omega
  · rcases hr : Sensor.read sensor reader with _ | ⟨v, r1⟩ <;>
      simp [writeLoop, hr]

/-- With a positive count and a range reaching past the buffer, the write
loop panics (out-of-bounds or cursor-underflow) before finishing. -/
theorem writeLoop_oob (sensor : Sensor) :
    ∀ (c : Nat) (samples : List Val) (reader : List Nat)
      (index samples_read : Nat), 1 ≤ c → 1 ≤ index →
      samples.length < index - 1 + c →
      writeLoop sensor samples reader index c samples_read = none := by
  intro c
  induction c with
  | zero => intro _ _ _ _ hc _ _; omega
  | succ c ih =>
    intro samples reader index sr _ hidx hlen
    rcases hr : Sensor.read sensor reader with _ | ⟨v, r1⟩ <;>
      simp only [writeLoop, hr]
    by_cases hcond : 1 ≤ index ∧ index - 1 < samples.length
    · rw [if_pos hcond]
      rcases Nat.eq_zero_or_pos c with h0 | hpos
      · exfalso
        obtain ⟨-, h2⟩ := hcond
        omega
      · exact ih _ _ _ _ hpos (by omega) (by rw [List.length_set]; omega)
    · rw [if_neg hcond]

/-- One well-formed matching frame, via `writeLoop_eq`: the state machine
writes the decoded values at `[index - 1, index - 1 + count)`, adds `count`
to `samples_read`, and breaks with `complete` exactly when the new running
count equals `num_samples`. -/
theorem process_frame_eq (sensor : Sensor) (total : Nat) (s : RState)
    (b0 b1 cnt : Nat) (payload : List Nat) (vs : List ℚ) (rest : List Nat)
    (hidx : 1 ≤ b0 + 256 * b1)
    (hbound : b0 + 256 * b1 - 1 + cnt ≤ s.samples.length)
    (hdec : decodeVals sensor cnt payload = some (vs, rest)) :
    process_frame sensor total s (sensor.id :: b0 :: b1 :: cnt :: payload) =
      if s.samples_read + cnt = total then
        Outcome.complete ⟨setRange s.samples (b0 + 256 * b1 - 1) vs,
          s.samples_read + cnt⟩
      else
        Outcome.next ⟨setRange s.samples (b0 + 256 * b1 - 1) vs,
          s.samples_read + cnt⟩ := by
  simp only [process_frame, get_u8, get_u16_le, if_pos rfl]
  rw [writeLoop_eq sensor cnt s.samples payload (b0 + 256 * b1) s.samples_read
    vs rest hidx hbound hdec]
  simp

/-- `process_frame_eq` restated over `mkFrame`, with the start index given as
a number below 2^16 instead of two bytes. -/
theorem process_frame_mk (sensor : Sensor) (total : Nat) (s : RState)
    (start cnt : Nat) (payload : List Nat) (vs : List ℚ) (rest : List Nat)
    (h1 : 1 ≤ start) (h65 : start < 65536)
    (hbound : start - 1 + cnt ≤ s.samples.length)
    (hdec : decodeVals sensor cnt payload = some (vs, rest)) :
    process_frame sensor total s (mkFrame sensor start cnt payload) =
      if s.samples_read + cnt = total then
        Outcome.complete ⟨setRange s.samples (start - 1) vs, s.samples_read + cnt⟩
      else
        Outcome.next ⟨setRange s.samples (start - 1) vs, s.samples_read + cnt⟩ := by
  have hmod : start % 256 + 256 * (start / 256) = start := by omega
  have h := process_frame_eq sensor total s (start % 256) (start / 256) cnt
    payload vs rest (by omega) (by rw [hmod]; exact hbound) hdec
  rw [hmod] at h
  exact h

theorem getElem?_setRange_out (vs : List ℚ) (l : List Val) (start j : Nat)
    (h : j < start ∨ start + vs.length ≤ j) :
    (setRange l start vs)[j]? = l[j]? :=
  h.elim (getElem?_setRange_lt vs l start j) (getElem?_setRange_ge vs l start j)

/-- Writes to disjoint index ranges commute. -/
theorem setRange_comm (l : List Val) (a1 a2 : Nat) (vs1 vs2 : List ℚ)
    (hdisj : a1 + vs1.length ≤ a2 ∨ a2 + vs2.length ≤ a1) :
    setRange (setRange l a1 vs1) a2 vs2 = setRange (setRange l a2 vs2) a1 vs1 := by
  apply List.ext_getElem?
  intro j
  by_cases hjl : j < l.length
  · by_cases hin1 : a1 ≤ j ∧ j < a1 + vs1.length
    · have hout2 : j < a2 ∨ a2 + vs2.length ≤ j := by omega
      rw [getElem?_setRange_out vs2 _ _ _ hout2,
        getElem?_setRange_mem vs1 _ _ _ hin1.1 hin1.2 hjl,
        getElem?_setRange_mem vs1 _ _ _ hin1.1 hin1.2
          (by rw [setRange_length]; exact hjl)]
    · by_cases hin2 : a2 ≤ j ∧ j < a2 + vs2.length
      · have hout1 : j < a1 ∨ a1 + vs1.length ≤ j := by omega
        rw [getElem?_setRange_out vs1 _ _ _ hout1,
          getElem?_setRange_mem vs2 _ _ _ hin2.1 hin2.2
            (by rw [setRange_length]; exact hjl),
          getElem?_setRange_mem vs2 _ _ _ hin2.1 hin2.2 hjl]
      · have hout1 : j < a1 ∨ a1 + vs1.length ≤ j := by omega
        have hout2 : j < a2 ∨ a2 + vs2.length ≤ j := by omega
        rw [getElem?_setRange_out vs2 _ _ _ hout2,
          getElem?_setRange_out vs1 _ _ _ hout1,
          getElem?_setRange_out vs1 _ _ _ hout1,
          getElem?_setRange_out vs2 _ _ _ hout2]
  · rw [List.getElem?_eq_none (by rw [setRange_length, setRange_length]; omega),
      List.getElem?_eq_none (by rw [setRange_length, setRange_length]; omega)]

/-- Overwriting a range with the same values again changes nothing. -/
theorem setRange_overwrite (l : List Val) (a : Nat) (vs : List ℚ) :
    setRange (setRange l a vs) a vs = setRange l a vs := by
  apply List.ext_getElem?
  intro j
  by_cases hjl : j < l.length
  · by_cases hin : a ≤ j ∧ j < a + vs.length
    · rw [getElem?_setRange_mem _ _ _ _ hin.1 hin.2
        (by rw [setRange_length]; exact hjl),
        getElem?_setRange_mem _ _ _ _ hin.1 hin.2 hjl]
    · have hout : j < a ∨ a + vs.length ≤ j := by omega
      rw [getElem?_setRange_out _ _ _ _ hout]
  · rw [List.getElem?_eq_none (by rw [setRange_length, setRange_length]; omega),
      List.getElem?_eq_none (by rw [setRange_length]; omega)]

/-- A run over well-formed frames whose counts never bring the running count
up to the declared total stays `pending`: the loop never breaks, the counts
accumulate, and positions outside every frame's range keep their previous
contents. -/
theorem run_pending (sensor : Sensor) (total : Nat) :
    ∀ (fs : List (Nat × Nat × List Nat)) (s0 : RState),
      (∀ f ∈ fs, WFFrame sensor total f) →
      s0.samples.length = total →
      s0.samples_read + (fs.map fun f => f.2.1).sum < total →
      ∃ s' : RState,
        run_history sensor total s0
            (fs.map fun f => mkFrame sensor f.1 f.2.1 f.2.2) =
          RunResult.pending s' ∧
        s'.samples_read = s0.samples_read + (fs.map fun f => f.2.1).sum ∧
        s'.samples.length = total ∧
        ∀ j, (∀ f ∈ fs, j < f.1 - 1 ∨ f.1 - 1 + f.2.1 ≤ j) →
          s'.samples[j]? = s0.samples[j]? := by
  intro fs
  induction fs with
  | nil =>
    intro s0 _ hlen _
    exact ⟨s0, rfl, by simp, hlen, fun j _ => rfl⟩
  | cons f fs ih =>
    intro s0 hwf hlen hsum
    have hwff := hwf f (by simp)
    obtain ⟨hf1, hf65, hfb, vs, rest, hdec⟩ := hwff
    have hlsum : vs.length = f.2.1 := decodeVals_length sensor f.2.1 f.2.2 vs rest hdec
    have hsum' : s0.samples_read + f.2.1 + (fs.map fun g => g.2.1).sum < total := by
      simp only [List.map_cons, List.sum_cons] at hsum
      omega
    have hpf := process_frame_mk sensor total s0 f.1 f.2.1 f.2.2 vs rest hf1 hf65
      (by omega) hdec
    have hc : ¬s0.samples_read + f.2.1 = total := by omega
    have step : process_frame sensor total s0 (mkFrame sensor f.1 f.2.1 f.2.2) =
        Outcome.next ⟨setRange s0.samples (f.1 - 1) vs, s0.samples_read + f.2.1⟩ := by
      rw [hpf, if_neg hc]
    obtain ⟨s', hrun, hread, hslen, hout⟩ :=
      ih ⟨setRange s0.samples (f.1 - 1) vs, s0.samples_read + f.2.1⟩
        (fun g hg => hwf g (by simp [hg]))
        (by rw [show (⟨setRange s0.samples (f.1 - 1) vs, s0.samples_read + f.2.1⟩ :
            RState).samples = setRange s0.samples (f.1 - 1) vs from rfl,
          setRange_length]; exact hlen)
        hsum'
    refine ⟨s', ?_, ?_, hslen, ?_⟩
    · simp only [List.map_cons, run_history, step]
      exact hrun
    · rw [hread]
      simp only [List.map_cons, List.sum_cons]
      omega
    · intro j hj
      rw [hout j (fun g hg => hj g (by simp [hg]))]
      have hjf := hj f (by simp)
      exact getElem?_setRange_out vs s0.samples (f.1 - 1) j (by omega)

/-- C9: if the well-formed frames delivered to the reassembler carry fewer
values in total than declared, the run never completes: it stays pending
with the running count equal to the delivered sum, every position outside
all delivered ranges still holds the NaN sentinel, and the sentinel is
distinct from every value the sensor codec can decode. -/
theorem claim_C9 (sensor : Sensor) (total : Nat)
    (fs : List (Nat × Nat × List Nat))
    (hwf : ∀ f ∈ fs, WFFrame sensor total f)
    (hsum : (fs.map fun f => f.2.1).sum < total) :
    (∃ s' : RState,
      run_history sensor total (init_state total)
          (fs.map fun f => mkFrame sensor f.1 f.2.1 f.2.2) =
        RunResult.pending s' ∧
      s'.samples_read = (fs.map fun f => f.2.1).sum ∧
      ∀ j, j < total → (∀ f ∈ fs, j < f.1 - 1 ∨ f.1 - 1 + f.2.1 ≤ j) →
        s'.samples[j]? = some Val.nan) ∧
    (∀ (sn : Sensor) (r : List Nat) (q : ℚ) (rr : List Nat),
      sn.read r = some (q, rr) → Val.num q ≠ Val.nan) := by
  constructor
  · obtain ⟨s', hrun, hread, hslen, hout⟩ :=
      run_pending sensor total fs (init_state total) hwf (by simp [init_state])
        (by simpa [init_state] using hsum)
    refine ⟨s', hrun, by simpa [init_state] using hread, ?_⟩
    intro j hj hfj
    rw [hout j hfj]
    simp [init_state, List.getElem?_replicate, hj]
  · intro sn r q rr _
    exact fun h => Val.noConfusion h

/-- Witness for C9: a single CO2 frame delivering 1 of 3 declared samples
leaves the run pending with the sentinel at positions 1 and 2. -/
theorem claim_C9_witness :
    (∃ s' : RState,
      run_history .CO2 3 (init_state 3)
          ([((1 : Nat), (1 : Nat), ([100, 0] : List Nat))].map
            fun f => mkFrame .CO2 f.1 f.2.1 f.2.2) =
        RunResult.pending s' ∧
      s'.samples_read =
        (([((1 : Nat), (1 : Nat), ([100, 0] : List Nat))]).map
          fun f => f.2.1).sum ∧
      ∀ j, j < 3 →
        (∀ f ∈ [((1 : Nat), (1 : Nat), ([100, 0] : List Nat))],
          j < f.1 - 1 ∨ f.1 - 1 + f.2.1 ≤ j) →
        s'.samples[j]? = some Val.nan) ∧
    (∀ (sn : Sensor) (r : List Nat) (q : ℚ) (rr : List Nat),
      sn.read r = some (q, rr) → Val.num q ≠ Val.nan) :=
  claim_C9 .CO2 3 [((1 : Nat), (1 : Nat), ([100, 0] : List Nat))]
    (by
      intro f hf
      simp only [List.mem_singleton] at hf
      subst hf
      exact ⟨by decide, by decide, by decide, [100], [],
        by norm_num [decodeVals, Sensor.read, get_u16_le]⟩)
    (by decide)

/-- C4: for every sensor and every start/end pair (as u16 values), the
encoded history-range-request command is exactly the 8 bytes
`[0x82, sensor id, 0x00, 0x00, start u16LE, end u16LE]`; in particular for
sensor = Humidity, start = 1, end = 0xFFFF it is exactly
`[0x82, 0x02, 0x00, 0x00, 0x01, 0x00, 0xFF, 0xFF]`. -/
theorem claim_C4 (sensor : Sensor) (start stop : Nat)
    (h1 : start < 65536) (h2 : stop < 65536) :
    history_range_request sensor start stop =
      [0x82, sensor.id, 0x00, 0x00, start % 256, start / 256,
        stop % 256, stop / 256] ∧
    history_range_request .Humidity 1 0xffff =
      [0x82, 0x02, 0x00, 0x00, 0x01, 0x00, 0xFF, 0xFF] := by
  constructor
  · cases sensor <;>
      simp [history_range_request, put_u8, put_u16_le, Sensor.id] <;> omega
  · decide

/-- Witness for C4 at sensor = Humidity, start = 1, end = 0xFFFF. -/
theorem claim_C4_witness :
    history_range_request .Humidity 1 0xffff =
      [0x82, Sensor.id .Humidity, 0x00, 0x00, 1 % 256, 1 / 256,
        0xffff % 256, 0xffff / 256] ∧
    history_range_request .Humidity 1 0xffff =
      [0x82, 0x02, 0x00, 0x00, 0x01, 0x00, 0xFF, 0xFF] :=
  claim_C4 .Humidity 1 0xffff (by decide) (by decide)

/-- C5: for every sensor kind and every input buffer holding at least the
sensor's byte width (2 for Temperature/Pressure/CO2, 1 for Humidity),
`Sensor::read` interprets exactly that many bytes as a little-endian
unsigned integer, scales it by ÷20 for Temperature, ÷10 for Pressure and
not at all for Humidity/CO2, and advances the cursor by exactly the width. -/
theorem claim_C5 (s : Sensor) (r : List Nat) (h : s.width ≤ r.length) :
    s.read r = some (s.scale (rawLE (r.take s.width)), r.drop s.width) ∧
    (∀ raw : Nat,
      Sensor.scale .Temperature raw = (raw : ℚ) / 20 ∧
      Sensor.scale .Pressure raw = (raw : ℚ) / 10 ∧
      Sensor.scale .Humidity raw = (raw : ℚ) ∧
      Sensor.scale .CO2 raw = (raw : ℚ)) ∧
    Sensor.width .Temperature = 2 ∧ Sensor.width .Pressure = 2 ∧
    Sensor.width .CO2 = 2 ∧ Sensor.width .Humidity = 1 ∧
    (r.drop s.width).length + s.width = r.length := by
  refine ⟨sensor_read_eq s r h, fun raw => ⟨rfl, rfl, rfl, rfl⟩,
    rfl, rfl, rfl, rfl, ?_⟩
  rw [List.length_drop]
  omega

/-- Witness for C5 at Temperature on the two-byte buffer `[100, 0]`
(raw 100, decoded value 100/20 = 5). -/
theorem claim_C5_witness :
    (Sensor.read .Temperature [100, 0] =
      some (Sensor.scale .Temperature
          (rawLE (List.take (Sensor.width .Temperature) [100, 0])),
        List.drop (Sensor.width .Temperature) [100, 0]) ∧
      (∀ raw : Nat,
        Sensor.scale .Temperature raw = (raw : ℚ) / 20 ∧
        Sensor.scale .Pressure raw = (raw : ℚ) / 10 ∧
        Sensor.scale .Humidity raw = (raw : ℚ) ∧
        Sensor.scale .CO2 raw = (raw : ℚ)) ∧
      Sensor.width .Temperature = 2 ∧ Sensor.width .Pressure = 2 ∧
      Sensor.width .CO2 = 2 ∧ Sensor.width .Humidity = 1 ∧
      (List.drop (Sensor.width .Temperature) [100, 0]).length +
        Sensor.width .Temperature = ([100, 0] : List Nat).length) ∧
    Sensor.read .Temperature [100, 0] = some (5, []) :=
  ⟨claim_C5 .Temperature [100, 0] (by decide),
    by norm_num [Sensor.read, get_u16_le]⟩

/-- Counterexample to C2 as stated: at the concrete mismatched frame
`[1, 1, 0, 1, 100, 0]` during a CO2 retrieval, the sensor-id check is the
`assert_eq!` at `main.rs` line 187, which fails by panicking — a crash by
the same `panic!` mechanism as the write loop's out-of-bounds panics — so
the mismatch is not reported as a non-crash error outcome. -/
theorem claim_C2_counterexample :
    (process_frame .CO2 3 (init_state 3) [1, 1, 0, 1, 100, 0]).isCrash = true ∧
    process_frame .CO2 3 (init_state 3) [1, 1, 0, 1, 100, 0] =
      Outcome.protocolViolation (init_state 3) := by
  constructor <;> rfl

/-- C2 amended: a parsed frame whose leading sensor id byte differs from the
target sensor's id makes `read_history` fail the
`assert_eq!(sensor_id, sensor.id())` — a panic, i.e. a crash by the same
mechanism as the write loop's index panics, not a returned error value —
before decoding any value of the frame: the sample buffer and running count
at the moment of the panic are completely untouched.
`Outcome.protocolViolation` records this panic site, carrying the untouched
state, and `Outcome.isCrash` records that it crashes. -/
theorem claim_C2 (sensor : Sensor) (total : Nat) (s : RState)
    (sid b0 b1 cnt : Nat) (payload : List Nat) (hne : sid ≠ sensor.id) :
    process_frame sensor total s (sid :: b0 :: b1 :: cnt :: payload) =
      Outcome.protocolViolation s ∧
    (process_frame sensor total s (sid :: b0 :: b1 :: cnt :: payload)).isCrash =
      true := by
  have h : process_frame sensor total s (sid :: b0 :: b1 :: cnt :: payload) =
      Outcome.protocolViolation s := by
    simp [process_frame, get_u8, get_u16_le, hne]
  exact ⟨h, by rw [h]; rfl⟩

/-- Witness for C2's amended claim: a Temperature-tagged frame (id 1)
arriving during a CO2 retrieval panics at the assertion, leaving the fresh
3-slot buffer untouched. -/
theorem claim_C2_witness :
    (1 ≠ Sensor.id .CO2) ∧
    (process_frame .CO2 3 (init_state 3) [1, 2, 0, 1, 100, 0] =
        Outcome.protocolViolation (init_state 3) ∧
      (process_frame .CO2 3 (init_state 3) [1, 2, 0, 1, 100, 0]).isCrash =
        true) :=
  ⟨by decide, claim_C2 .CO2 3 (init_state 3) 1 2 0 1 [100, 0] (by decide)⟩

/-- C1: with declared total 3 and a fresh all-sentinel buffer, the frames
`{sensor=CO2, start=1, count=2, payload=[100,0,200,0]}` then
`{sensor=CO2, start=3, count=1, payload=[50,0]}` reach `Complete` with
buffer `[100, 200, 50]`, and after only the first frame the machine is
still awaiting (buffer `[100, 200, NaN]`); in general a well-formed
matching frame writes its `count` decoded values exactly into positions
`[start-1, start-1+count)`, leaves every other position unchanged, and a
frame with count zero changes nothing. -/
theorem claim_C1 :
    run_history .CO2 3 (init_state 3)
        [[4, 1, 0, 2, 100, 0, 200, 0], [4, 3, 0, 1, 50, 0]] =
      RunResult.complete [Val.num 100, Val.num 200, Val.num 50] ∧
    process_frame .CO2 3 (init_state 3) [4, 1, 0, 2, 100, 0, 200, 0] =
      Outcome.next ⟨[Val.num 100, Val.num 200, Val.nan], 2⟩ ∧
    ∀ (sensor : Sensor) (total : Nat) (s : RState) (start cnt : Nat)
      (payload : List Nat) (vs : List ℚ) (rest : List Nat),
      1 ≤ start → start < 65536 → start - 1 + cnt ≤ s.samples.length →
      decodeVals sensor cnt payload = some (vs, rest) →
      ∃ s' : RState,
        (process_frame sensor total s (mkFrame sensor start cnt payload) =
            Outcome.next s' ∨
          process_frame sensor total s (mkFrame sensor start cnt payload) =
            Outcome.complete s') ∧
        (∀ j, start - 1 ≤ j → j < start - 1 + cnt →
          s'.samples[j]? = (vs[j - (start - 1)]?).map Val.num) ∧
        (∀ j, j < start - 1 ∨ start - 1 + cnt ≤ j →
          s'.samples[j]? = s.samples[j]?) ∧
        (cnt = 0 → s'.samples = s.samples) := by
  refine ⟨?_, ?_, ?_⟩
  · norm_num [run_history, process_frame, init_state, writeLoop, get_u8,
      get_u16_le, Sensor.read, Sensor.id, List.replicate, List.set]
  · norm_num [process_frame, init_state, writeLoop, get_u8, get_u16_le,
      Sensor.read, Sensor.id, List.replicate, List.set]
  · intro sensor total s start cnt payload vs rest h1 h65 hb hdec
    have hlen := decodeVals_length sensor cnt payload vs rest hdec
    have hpf := process_frame_mk sensor total s start cnt payload vs rest
      h1 h65 hb hdec
    refine ⟨⟨setRange s.samples (start - 1) vs, s.samples_read + cnt⟩,
      ?_, ?_, ?_, ?_⟩
    · rw [hpf]
      by_cases hc : s.samples_read + cnt = total
      · rw [if_pos hc]; exact Or.inr rfl
      · rw [if_neg hc]; exact Or.inl rfl
    · intro j hj1 hj2
      exact getElem?_setRange_mem vs s.samples (start - 1) j hj1
        (by omega) (by omega)
    · intro j hj
      exact getElem?_setRange_out vs s.samples (start - 1) j (by omega)
    · intro hz
      subst hz
      have : vs = [] := List.eq_nil_of_length_eq_zero hlen
      rw [this]
      rfl

/-- Witness for C1's general conjunct at the first example frame:
CO2 retrieval, total 3, frame start 1 count 2 payload `[100,0,200,0]`. -/
theorem claim_C1_witness :
    ∃ s' : RState,
      (process_frame .CO2 3 (init_state 3) (mkFrame .CO2 1 2 [100, 0, 200, 0]) =
          Outcome.next s' ∨
        process_frame .CO2 3 (init_state 3) (mkFrame .CO2 1 2 [100, 0, 200, 0]) =
          Outcome.complete s') ∧
      (∀ j, 1 - 1 ≤ j → j < 1 - 1 + 2 →
        s'.samples[j]? = (([100, 200] : List ℚ)[j - (1 - 1)]?).map Val.num) ∧
      (∀ j, j < 1 - 1 ∨ 1 - 1 + 2 ≤ j →
        s'.samples[j]? = (init_state 3).samples[j]?) ∧
      (2 = 0 → s'.samples = (init_state 3).samples) :=
  claim_C1.2.2 .CO2 3 (init_state 3) 1 2 [100, 0, 200, 0] [100, 200] []
    (by decide) (by decide) (by decide)
    (by norm_num [decodeVals, Sensor.read, get_u16_le])

/-- Counterexample to C6 as stated: a 9-byte buffer does make the
current-reading sequence fail with a buffer underflow (the `u16` interval
read at offset 9 has no bytes left), though the claim says every buffer of
at least 9 bytes avoids it; and the failure is not free of partial output:
six fields (CO2, Temperature, Pressure, Humidity, Battery, Status) have
already been printed when the panic hits, so fields of the snapshot are
produced and emitted before the failure. -/
theorem claim_C6_counterexample :
    ([0, 0, 0, 0, 0, 0, 0, 0, 0] : List Nat).length = 9 ∧
    read_current [0, 0, 0, 0, 0, 0, 0, 0, 0] = none ∧
    (read_current_trace [0, 0, 0, 0, 0, 0, 0, 0, 0]).1 =
      [Field.co2 0, Field.temperature 0, Field.pressure 0, Field.humidity 0,
        Field.battery 0, Field.status 0] := by
  refine ⟨rfl, ?_, ?_⟩ <;>
    norm_num [read_current, read_current_trace, Sensor.read, get_u8, get_u16_le]

/-- C6 amended: the current-reading sequence consumes 13 bytes (CO2 2 +
Temperature 2 + Pressure 2 + Humidity 1 + battery 1 + status 1 + interval 2
+ passed 2). Every buffer shorter than 13 bytes makes it fail with a buffer
underflow, producing no complete snapshot but having already printed
exactly the fields decoded before the failing read (`emitted_fields` of the
buffer length); every buffer of at least 13 bytes does not underflow and
prints all eight fields. -/
theorem claim_C6_amended (buf : List Nat) :
    (buf.length < 13 → read_current buf = none ∧
      (read_current_trace buf).1.length = emitted_fields buf.length) ∧
    (13 ≤ buf.length → (read_current_trace buf).1.length = 8 ∧
      ∃ snap, read_current buf = some snap) := by
  constructor
  · intro h
    rcases buf with _ | ⟨b0, _ | ⟨b1, _ | ⟨b2, _ | ⟨b3, _ | ⟨b4, _ | ⟨b5, _ |
      ⟨b6, _ | ⟨b7, _ | ⟨b8, _ | ⟨b9, _ | ⟨b10, _ | ⟨b11, _ |
      ⟨b12, rest⟩⟩⟩⟩⟩⟩⟩⟩⟩⟩⟩⟩⟩ <;> first
      | (exfalso; simp only [List.length_cons, List.length_nil] at h; omega)
      | simp [read_current, read_current_trace, emitted_fields, Sensor.read,
          get_u8, get_u16_le]
  · intro h
    rcases buf with _ | ⟨b0, _ | ⟨b1, _ | ⟨b2, _ | ⟨b3, _ | ⟨b4, _ | ⟨b5, _ |
      ⟨b6, _ | ⟨b7, _ | ⟨b8, _ | ⟨b9, _ | ⟨b10, _ | ⟨b11, _ |
      ⟨b12, rest⟩⟩⟩⟩⟩⟩⟩⟩⟩⟩⟩⟩⟩ <;> first
      | (exfalso; simp only [List.length_cons, List.length_nil] at h; omega)
      | exact ⟨rfl, _, rfl⟩

/-- Witness for C6's amended claim: a 13-byte zero buffer prints all eight
fields and yields a snapshot; a 12-byte one underflows after printing
exactly seven fields and yields none. -/
theorem claim_C6_witness :
    ((List.replicate 12 (0 : Nat)).length < 13 ∧
      (read_current (List.replicate 12 0) = none ∧
        (read_current_trace (List.replicate 12 0)).1.length =
          emitted_fields (List.replicate 12 (0 : Nat)).length)) ∧
    (13 ≤ (List.replicate 13 (0 : Nat)).length ∧
      ((read_current_trace (List.replicate 13 0)).1.length = 8 ∧
        ∃ snap, read_current (List.replicate 13 0) = some snap)) :=
  ⟨⟨by decide, (claim_C6_amended (List.replicate 12 0)).1 (by decide)⟩,
    ⟨by decide, (claim_C6_amended (List.replicate 13 0)).2 (by decide)⟩⟩

/-- Counterexample to C3 as stated: with declared total 2, sending the frame
`{sensor=CO2, start=1, count=1, payload=[100,0]}` twice reaches `Complete`
even though only one distinct position was ever written and position 1
still holds the NaN sentinel — completion compares the running write count
(duplicates included), not the number of distinct written positions. -/
theorem claim_C3_counterexample :
    run_history .CO2 2 (init_state 2)
        [[4, 1, 0, 1, 100, 0], [4, 1, 0, 1, 100, 0]] =
      RunResult.complete [Val.num 100, Val.nan] ∧
    ([Val.num 100, Val.nan] : List Val)[1]? = some Val.nan := by
  constructor
  · norm_num [run_history, process_frame, init_state, writeLoop, get_u8,
      get_u16_le, Sensor.read, Sensor.id, List.replicate, List.set]
  · rfl

/-- C3 amended: the reassembler transitions to `Complete` on a well-formed
matching frame exactly when the accumulated number of write operations
(`samples_read`, counting duplicate positions again) equals the declared
total; a duplicate frame therefore advances the count and can reach
`Complete` while sentinel positions remain. -/
theorem claim_C3_amended (sensor : Sensor) (total : Nat) (s : RState)
    (start cnt : Nat) (payload : List Nat) (vs : List ℚ) (rest : List Nat)
    (h1 : 1 ≤ start) (h65 : start < 65536)
    (hbound : start - 1 + cnt ≤ s.samples.length)
    (hdec : decodeVals sensor cnt payload = some (vs, rest)) :
    (process_frame sensor total s (mkFrame sensor start cnt payload) =
        Outcome.complete
          ⟨setRange s.samples (start - 1) vs, s.samples_read + cnt⟩ ↔
      s.samples_read + cnt = total) ∧
    (s.samples_read + cnt ≠ total →
      process_frame sensor total s (mkFrame sensor start cnt payload) =
        Outcome.next
          ⟨setRange s.samples (start - 1) vs, s.samples_read + cnt⟩) := by
  rw [process_frame_mk sensor total s start cnt payload vs rest h1 h65 hbound hdec]
  by_cases hc : s.samples_read + cnt = total <;> simp [hc]

/-- Witness for C3's amended claim: second duplicate frame of the
counterexample trace, where the running count 1 + 1 reaches total 2 and the
machine completes with the sentinel still at position 1. -/
theorem claim_C3_witness :
    (process_frame .CO2 2 ⟨[Val.num 100, Val.nan], 1⟩ (mkFrame .CO2 1 1 [100, 0]) =
        Outcome.complete
          ⟨setRange [Val.num 100, Val.nan] (1 - 1) [100], 1 + 1⟩ ↔
      1 + 1 = 2) ∧
    (1 + 1 ≠ 2 →
      process_frame .CO2 2 ⟨[Val.num 100, Val.nan], 1⟩ (mkFrame .CO2 1 1 [100, 0]) =
        Outcome.next ⟨setRange [Val.num 100, Val.nan] (1 - 1) [100], 1 + 1⟩) :=
  claim_C3_amended .CO2 2 ⟨[Val.num 100, Val.nan], 1⟩ 1 1 [100, 0] [100] []
    (by decide) (by decide) (by decide)
    (by norm_num [decodeVals, Sensor.read, get_u16_le])

/-- C8: processing a well-formed matching frame leaves the buffer at
`setRange s.samples (start-1) vs`, and processing the very same frame again
from the resulting buffer (whatever the running count then is) leaves the
buffer contents identical: the duplicate writes overwrite the same
positions with the same decoded values. -/
theorem claim_C8 (sensor : Sensor) (total : Nat) (s : RState)
    (start cnt : Nat) (payload : List Nat) (vs : List ℚ) (rest : List Nat)
    (h1 : 1 ≤ start) (h65 : start < 65536)
    (hbound : start - 1 + cnt ≤ s.samples.length)
    (hdec : decodeVals sensor cnt payload = some (vs, rest)) :
    (process_frame sensor total s (mkFrame sensor start cnt payload)).buffer =
      some (setRange s.samples (start - 1) vs) ∧
    ∀ r : Nat,
      (process_frame sensor total ⟨setRange s.samples (start - 1) vs, r⟩
        (mkFrame sensor start cnt payload)).buffer =
        some (setRange s.samples (start - 1) vs) := by
  constructor
  · rw [process_frame_mk sensor total s start cnt payload vs rest h1 h65 hbound hdec]
    by_cases hc : s.samples_read + cnt = total <;> simp [hc, Outcome.buffer]
  · intro r
    rw [process_frame_mk sensor total ⟨setRange s.samples (start - 1) vs, r⟩
      start cnt payload vs rest h1 h65
      (by rw [setRange_length]; exact hbound) hdec]
    by_cases hc : r + cnt = total <;>
      simp [hc, Outcome.buffer, setRange_overwrite]

/-- Witness for C8: the CO2 frame start 1, count 1, payload `[100,0]` on a
fresh 2-slot buffer, processed twice. -/
theorem claim_C8_witness :
    (process_frame .CO2 2 (init_state 2) (mkFrame .CO2 1 1 [100, 0])).buffer =
      some (setRange (init_state 2).samples (1 - 1) [100]) ∧
    ∀ r : Nat,
      (process_frame .CO2 2 ⟨setRange (init_state 2).samples (1 - 1) [100], r⟩
        (mkFrame .CO2 1 1 [100, 0])).buffer =
        some (setRange (init_state 2).samples (1 - 1) [100]) :=
  claim_C8 .CO2 2 (init_state 2) 1 1 [100, 0] [100] []
    (by decide) (by decide) (by decide)
    (by norm_num [decodeVals, Sensor.read, get_u16_le])

/-- C10: the reassembler does no bounds check of its own. A matching frame
with start ≥ 1 and start-1+count within the buffer length never fails (it
always yields `next` or `complete`); a matching frame with start index 0,
or with a positive count whose range reaches past the buffer, makes the
buffer access itself panic (`panicked`), not an `Aborted` state. -/
theorem claim_C10 :
    (∀ (sensor : Sensor) (total : Nat) (s : RState) (start cnt : Nat)
        (payload : List Nat) (vs : List ℚ) (rest : List Nat),
      1 ≤ start → start < 65536 → start - 1 + cnt ≤ s.samples.length →
      decodeVals sensor cnt payload = some (vs, rest) →
      ∃ s', process_frame sensor total s (mkFrame sensor start cnt payload) =
          Outcome.next s' ∨
        process_frame sensor total s (mkFrame sensor start cnt payload) =
          Outcome.complete s') ∧
    (∀ (sensor : Sensor) (total : Nat) (s : RState) (cnt : Nat)
        (payload : List Nat), 1 ≤ cnt →
      process_frame sensor total s (mkFrame sensor 0 cnt payload) =
        Outcome.panicked) ∧
    (∀ (sensor : Sensor) (total : Nat) (s : RState) (start cnt : Nat)
        (payload : List Nat), 1 ≤ start → start < 65536 → 1 ≤ cnt →
      s.samples.length < start - 1 + cnt →
      process_frame sensor total s (mkFrame sensor start cnt payload) =
        Outcome.panicked) := by
  refine ⟨?_, ?_, ?_⟩
  · intro sensor total s start cnt payload vs rest h1 h65 hb hdec
    rw [process_frame_mk sensor total s start cnt payload vs rest h1 h65 hb hdec]
    by_cases hc : s.samples_read + cnt = total
    · exact ⟨_, by rw [if_pos hc]; exact Or.inr rfl⟩
    · exact ⟨_, by rw [if_neg hc]; exact Or.inl rfl⟩
  · intro sensor total s cnt payload hcnt
    have hz := writeLoop_zero_index sensor s.samples payload cnt s.samples_read hcnt
    simp [mkFrame, process_frame, get_u8, get_u16_le, hz]
  · intro sensor total s start cnt payload h1 h65 hcnt hlen
    have hmod : start % 256 + 256 * (start / 256) = start := by omega
    have hoob := writeLoop_oob sensor cnt s.samples payload start s.samples_read
      hcnt h1 hlen
    simp [mkFrame, process_frame, get_u8, get_u16_le, hmod, hoob]

/-- Witness for C10: an in-bounds Pressure frame on a 3-slot buffer does not
fail; a CO2 frame with start 0 panics; a CO2 frame whose range `[1, 3)`
reaches past a 2-slot buffer panics. -/
theorem claim_C10_witness :
    (∃ s', process_frame .Pressure 3 (init_state 3) (mkFrame .Pressure 2 1 [123, 0]) =
        Outcome.next s' ∨
      process_frame .Pressure 3 (init_state 3) (mkFrame .Pressure 2 1 [123, 0]) =
        Outcome.complete s') ∧
    process_frame .CO2 2 (init_state 2) (mkFrame .CO2 0 1 [100, 0]) =
      Outcome.panicked ∧
    process_frame .CO2 2 (init_state 2) (mkFrame .CO2 2 2 [100, 0, 200, 0]) =
      Outcome.panicked :=
  ⟨claim_C10.1 .Pressure 3 (init_state 3) 2 1 [123, 0] [123 / 10] []
      (by decide) (by decide) (by decide)
      (by norm_num [decodeVals, Sensor.read, get_u16_le]),
    claim_C10.2.1 .CO2 2 (init_state 2) 1 [100, 0] (by decide),
    claim_C10.2.2 .CO2 2 (init_state 2) 2 2 [100, 0, 200, 0]
      (by decide) (by decide) (by decide) (by decide)⟩

/-- C7: two well-formed frames of the target sensor that write disjoint
position ranges can be delivered in either relative order from the same
in-flight state: the run over `[f1, f2]` and over `[f2, f1]` produces the
same result (same final buffer contents and same completion outcome). The
hypotheses spell out well-formedness of the in-flight retrieval: in-bounds
1-based ranges, decodable payloads, mutually disjoint ranges, and a running
count that (as for any input writing each position at most once) has at
most `total` writes in flight overall. -/
theorem claim_C7 (sensor : Sensor) (total : Nat) (s : RState)
    (st1 c1 : Nat) (p1 : List Nat) (vs1 : List ℚ) (r1 : List Nat)
    (st2 c2 : Nat) (p2 : List Nat) (vs2 : List ℚ) (r2 : List Nat)
    (hlen : s.samples.length = total)
    (h11 : 1 ≤ st1) (h165 : st1 < 65536) (h1b : st1 - 1 + c1 ≤ total)
    (h1d : decodeVals sensor c1 p1 = some (vs1, r1))
    (h21 : 1 ≤ st2) (h265 : st2 < 65536) (h2b : st2 - 1 + c2 ≤ total)
    (h2d : decodeVals sensor c2 p2 = some (vs2, r2))
    (hdisj : st1 - 1 + c1 ≤ st2 - 1 ∨ st2 - 1 + c2 ≤ st1 - 1)
    (hcount : s.samples_read + c1 + c2 ≤ total) :
    run_history sensor total s
        [mkFrame sensor st1 c1 p1, mkFrame sensor st2 c2 p2] =
      run_history sensor total s
        [mkFrame sensor st2 c2 p2, mkFrame sensor st1 c1 p1] := by
  have hl1 := decodeVals_length sensor c1 p1 vs1 r1 h1d
  have hl2 := decodeVals_length sensor c2 p2 vs2 r2 h2d
  have hb1 : st1 - 1 + c1 ≤ s.samples.length := by omega
  have hb2 : st2 - 1 + c2 ≤ s.samples.length := by omega
  have hA := process_frame_mk sensor total s st1 c1 p1 vs1 r1 h11 h165 hb1 h1d
  have hB := process_frame_mk sensor total s st2 c2 p2 vs2 r2 h21 h265 hb2 h2d
  have hB2 := process_frame_mk sensor total
    ⟨setRange s.samples (st1 - 1) vs1, s.samples_read + c1⟩ st2 c2 p2 vs2 r2
    h21 h265 (by rw [setRange_length]; exact hb2) h2d
  have hA2 := process_frame_mk sensor total
    ⟨setRange s.samples (st2 - 1) vs2, s.samples_read + c2⟩ st1 c1 p1 vs1 r1
    h11 h165 (by rw [setRange_length]; exact hb1) h1d
  have hcomm : setRange (setRange s.samples (st1 - 1) vs1) (st2 - 1) vs2 =
      setRange (setRange s.samples (st2 - 1) vs2) (st1 - 1) vs1 :=
    setRange_comm s.samples (st1 - 1) (st2 - 1) vs1 vs2 (by rw [hl1, hl2]; exact hdisj)
  by_cases hc1 : s.samples_read + c1 = total
  · have hc2z : c2 = 0 := by omega
    subst hc2z
    have hvs2 : vs2 = [] := List.eq_nil_of_length_eq_zero hl2
    subst hvs2
    have step1 : process_frame sensor total s (mkFrame sensor st1 c1 p1) =
        Outcome.complete ⟨setRange s.samples (st1 - 1) vs1, s.samples_read + c1⟩ := by
      rw [hA, if_pos hc1]
    by_cases hc2 : s.samples_read + 0 = total
    · have hc1z : c1 = 0 := by omega
      subst hc1z
      have hvs1 : vs1 = [] := List.eq_nil_of_length_eq_zero hl1
      subst hvs1
      have step2 : process_frame sensor total s (mkFrame sensor st2 0 p2) =
          Outcome.complete ⟨setRange s.samples (st2 - 1) [], s.samples_read + 0⟩ := by
        rw [hB, if_pos hc2]
      simp only [run_history, step1, step2]
      rfl
    · have step2 : process_frame sensor total s (mkFrame sensor st2 0 p2) =
          Outcome.next ⟨setRange s.samples (st2 - 1) [], s.samples_read + 0⟩ := by
        rw [hB, if_neg hc2]
      simp only [run_history, step1, step2]
      have hs : (⟨setRange s.samples (st2 - 1) [], s.samples_read + 0⟩ : RState) = s :=
        rfl
      rw [hs]
      simp only [run_history, step1]
  · by_cases hc2 : s.samples_read + c2 = total
    · have hc1z : c1 = 0 := by omega
      subst hc1z
      have hvs1 : vs1 = [] := List.eq_nil_of_length_eq_zero hl1
      subst hvs1
      have step1 : process_frame sensor total s (mkFrame sensor st1 0 p1) =
          Outcome.next ⟨setRange s.samples (st1 - 1) [], s.samples_read + 0⟩ := by
        rw [hA, if_neg (by omega)]
      have step2 : process_frame sensor total s (mkFrame sensor st2 c2 p2) =
          Outcome.complete ⟨setRange s.samples (st2 - 1) vs2, s.samples_read + c2⟩ := by
        rw [hB, if_pos hc2]
      simp only [run_history, step1, step2]
      have hs : (⟨setRange s.samples (st1 - 1) [], s.samples_read + 0⟩ : RState) = s :=
        rfl
      rw [hs]
      simp only [run_history, step2]
    · have step1 : process_frame sensor total s (mkFrame sensor st1 c1 p1) =
          Outcome.next ⟨setRange s.samples (st1 - 1) vs1, s.samples_read + c1⟩ := by
        rw [hA, if_neg hc1]
      have step2 : process_frame sensor total s (mkFrame sensor st2 c2 p2) =
          Outcome.next ⟨setRange s.samples (st2 - 1) vs2, s.samples_read + c2⟩ := by
        rw [hB, if_neg hc2]
      by_cases hc12 : s.samples_read + c1 + c2 = total
      · have step12 : process_frame sensor total
            ⟨setRange s.samples (st1 - 1) vs1, s.samples_read + c1⟩
            (mkFrame sensor st2 c2 p2) =
            Outcome.complete
              ⟨setRange (setRange s.samples (st1 - 1) vs1) (st2 - 1) vs2,
                s.samples_read + c1 + c2⟩ := by
          rw [hB2, if_pos hc12]
        have step21 : process_frame sensor total
            ⟨setRange s.samples (st2 - 1) vs2, s.samples_read + c2⟩
            (mkFrame sensor st1 c1 p1) =
            Outcome.complete
              ⟨setRange (setRange s.samples (st2 - 1) vs2) (st1 - 1) vs1,
                s.samples_read + c2 + c1⟩ := by
          rw [hA2, if_pos (show s.samples_read + c2 + c1 = total by omega)]
        simp only [run_history, step1, step2, step12, step21]
        rw [hcomm]
      · have step12 : process_frame sensor total
            ⟨setRange s.samples (st1 - 1) vs1, s.samples_read + c1⟩
            (mkFrame sensor st2 c2 p2) =
            Outcome.next
              ⟨setRange (setRange s.samples (st1 - 1) vs1) (st2 - 1) vs2,
                s.samples_read + c1 + c2⟩ := by
          rw [hB2, if_neg hc12]
        have step21 : process_frame sensor total
            ⟨setRange s.samples (st2 - 1) vs2, s.samples_read + c2⟩
            (mkFrame sensor st1 c1 p1) =
            Outcome.next
              ⟨setRange (setRange s.samples (st2 - 1) vs2) (st1 - 1) vs1,
                s.samples_read + c2 + c1⟩ := by
          rw [hA2, if_neg (show ¬s.samples_read + c2 + c1 = total by omega)]
        simp only [run_history, step1, step2, step12, step21]
        rw [hcomm]
        have hcc : s.samples_read + c1 + c2 = s.samples_read + c2 + c1 := by omega
        rw [hcc]

/-- Witness for C7: CO2 retrieval with total 3, the two example frames
(start 1 count 2, start 3 count 1) from the fresh state, in both orders. -/
theorem claim_C7_witness :
    run_history .CO2 3 (init_state 3)
        [mkFrame .CO2 1 2 [100, 0, 200, 0], mkFrame .CO2 3 1 [50, 0]] =
      run_history .CO2 3 (init_state 3)
        [mkFrame .CO2 3 1 [50, 0], mkFrame .CO2 1 2 [100, 0, 200, 0]] :=
  claim_C7 .CO2 3 (init_state 3) 1 2 [100, 0, 200, 0] [100, 200] []
    3 1 [50, 0] [50] [] (by decide) (by decide) (by decide) (by decide)
    (by norm_num [decodeVals, Sensor.read, get_u16_le])
    (by decide) (by decide) (by decide)
    (by norm_num [decodeVals, Sensor.read, get_u16_le])
    (by decide) (by decide)

end Cotracker
